import Mathlib

/-!
Verification of the dhis2Sync migration engine (`src/Transfer.py`).

The Python code is shallowly embedded: JSON values become the inductive
`JVal` (JSON numbers are modelled as integers; the repository's records and
mappings carry ids and counts, no floats), Python dicts parsed from JSON
become association lists with unique string keys, and Python exceptions
become `Except PyExn`.  Python runtime behaviours used by the code —
`dict.get` defaults, the `in` operator on dicts/lists/strings, truthiness,
`+` and `> 0` on heterogeneous values, `str()` formatting — are embedded as
`py*` helper functions.  The exact message text carried by Python exception
objects is modelled loosely (the code never branches on it); Unicode
alphabetic classes beyond ASCII are not modelled in `isalpha`.
-/

/-- A JSON value as produced by `json.load` / `response.json()`.  `null`
doubles as Python `None`, which is also what `dict.get` returns for a
missing key. -/
inductive JVal where
  | null : JVal
  | bool (b : Bool) : JVal
  | num (n : Int) : JVal
  | str (s : String) : JVal
  | arr (xs : List JVal) : JVal
  | obj (kvs : List (String × JVal)) : JVal

/-- A record / JSON object: an insertion-ordered dict with string keys. -/
abbrev Item := List (String × JVal)

/-- First-match lookup in a dict (keys are unique after JSON parsing). -/
def lookupKV : List (String × JVal) → String → Option JVal
  | [], _ => none
  | (k, v) :: rest, key => if k = key then some v else lookupKV rest key

/-- Python `d[k] = v`: update the value in place if the key exists,
otherwise append the new key at the end (insertion order). -/
def setKV : List (String × JVal) → String → JVal → List (String × JVal)
  | [], key, v => [(key, v)]
  | (k, w) :: rest, key, v =>
      if k = key then (k, v) :: rest else (k, w) :: setKV rest key v

/-- Python `item.get(k, d)` on a JSON-parsed dict. -/
def pyGetD (item : Item) (k : String) (d : JVal) : JVal :=
  (lookupKV item k).getD d

/-- The `item.get('orgUnit')` read used by the batcher (`None` when the key
is missing). -/
def itemOrgUnit (item : Item) : JVal :=
  pyGetD item "orgUnit" JVal.null

/-- Python `is None` test on a JSON-derived value. -/
def JVal.isNull : JVal → Bool
  | .null => true
  | _ => false

mutual

/-- Python `==` on JSON-derived values.  `True == 1` and `False == 0` hold,
dict comparison ignores insertion order. -/
def pyEq : JVal → JVal → Bool
  | .null, .null => true
  | .bool a, .bool b => a == b
  | .bool a, .num n => (if a then (1 : Int) else 0) == n
  | .num n, .bool b => n == (if b then (1 : Int) else 0)
  | .num a, .num b => a == b
  | .str a, .str b => a == b
  | .arr a, .arr b => pyEqList a b
  | .obj a, .obj b => a.length == b.length && pyEqObjGo a b
  | _, _ => false
termination_by a _ => sizeOf a

/-- Elementwise Python `==` on two lists. -/
def pyEqList : List JVal → List JVal → Bool
  | [], [] => true
  | a :: as', b :: bs' => pyEq a b && pyEqList as' bs'
  | _, _ => false
termination_by a _ => sizeOf a

/-- Every key of the first dict is present in the second with `==` value. -/
def pyEqObjGo : List (String × JVal) → List (String × JVal) → Bool
  | [], _ => true
  | (k, v) :: rest, b =>
      (match lookupKV b k with
       | some w => pyEq v w
       | none => false) && pyEqObjGo rest b
termination_by a _ => sizeOf a

end

-- ======================================================================
-- Batcher.chunk_by_org_unit (Transfer.py lines 428-458)
-- ======================================================================

/-- Loop of `Batcher.chunk_by_org_unit`: state is the remaining stream, the
batch in progress (`current_batch`) and `current_ou` (initially Python
`None`, i.e. `JVal.null`).  A batch is flushed when the previous record had
a non-`None` orgUnit differing from the current record's, or when the batch
reaches `max_batch_size`. -/
def chunkGo (N : Nat) : List Item → List Item → JVal → List (List Item)
  | [], cur, _ => if cur.isEmpty then [] else [cur]
  | item :: rest, cur, curOu =>
      if !curOu.isNull && !pyEq (itemOrgUnit item) curOu then
        -- org-unit break: flush the batch in progress (if any), start a
        -- fresh one holding this record (which the size cap may flush at
        -- once when N ≤ 1)
        (if cur.isEmpty then [] else [cur]) ++
          (if N ≤ 1 then [[item]] ++ chunkGo N rest [] (itemOrgUnit item)
           else chunkGo N rest [item] (itemOrgUnit item))
      else
        -- no break: append the record, flush when the cap is reached
        if N ≤ cur.length + 1 then
          [cur ++ [item]] ++ chunkGo N rest [] (itemOrgUnit item)
        else chunkGo N rest (cur ++ [item]) (itemOrgUnit item)

/-- `Batcher.chunk_by_org_unit(generator, max_batch_size)` on a finite
stream. -/
def chunk_by_org_unit (records : List Item) (maxBatchSize : Nat) : List (List Item) :=
  chunkGo maxBatchSize records [] JVal.null

-- ======================================================================
-- Python runtime helpers used by the sanitizer and the response parser
-- ======================================================================

/-- Python exception classes raised by the embedded code.  The attached
string stands in for the human-readable message (`str(e)`); its exact text
is not part of the semantics the code depends on. -/
inductive PyExn where
  | typeError (msg : String) : PyExn
  | attributeError (msg : String) : PyExn
  | keyError (msg : String) : PyExn
  | requestExc (msg : String) : PyExn
  deriving DecidableEq

/-- Python `str(e)` for an exception. -/
def pyExnStr : PyExn → String
  | .typeError m => m
  | .attributeError m => m
  | .keyError m => m
  | .requestExc m => m

/-- Substring test: Python `needle in hay` for two strings. -/
def containsSubstr (needle hay : String) : Bool :=
  hay.data.tails.any (fun t => needle.data.isPrefixOf t)

/-- Python truthiness of a JSON-derived value. -/
def pyTruthy : JVal → Bool
  | .null => false
  | .bool b => b
  | .num n => n != 0
  | .str s => !s.isEmpty
  | .arr xs => !xs.isEmpty
  | .obj kvs => !kvs.isEmpty

/-- Python `needle in hay`: key membership on dicts (non-hashable keys
raise), `==`-membership on lists, substring on strings, `TypeError`
otherwise. -/
def pyIn (needle hay : JVal) : Except PyExn Bool :=
  match hay with
  | .obj kvs =>
      match needle with
      | .arr _ => .error (.typeError "unhashable type")
      | .obj _ => .error (.typeError "unhashable type")
      | .str s => .ok (lookupKV kvs s).isSome
      | _ => .ok false
  | .arr xs => .ok (xs.any (fun x => pyEq needle x))
  | .str hs =>
      match needle with
      | .str ns => .ok (containsSubstr ns hs)
      | _ => .error (.typeError "in string requires string as left operand")
  | _ => .error (.typeError "argument of type is not iterable")

/-- Python `hay[needle]` as used by the code (needles at every call site are
strings coming from a prior membership check). -/
def pyIndex (hay needle : JVal) : Except PyExn JVal :=
  match hay with
  | .obj kvs =>
      match needle with
      | .arr _ => .error (.typeError "unhashable type")
      | .obj _ => .error (.typeError "unhashable type")
      | .str s =>
          match lookupKV kvs s with
          | some v => .ok v
          | none => .error (.keyError s)
      | _ => .error (.keyError "missing key")
  | .arr _ => .error (.typeError "list indices must be integers")
  | .str _ => .error (.typeError "string indices must be integers")
  | _ => .error (.typeError "object is not subscriptable")

/-- Python `hay.get(k, d)`: `AttributeError` when `hay` is not a dict. -/
def pyDictGetD (hay : JVal) (k : String) (d : JVal) : Except PyExn JVal :=
  match hay with
  | .obj kvs => .ok ((lookupKV kvs k).getD d)
  | _ => .error (.attributeError "object has no attribute get")

/-- Python `s.isalpha()` on a string: nonempty and all alphabetic. -/
def strIsAlpha (s : String) : Bool :=
  !s.isEmpty && s.data.all Char.isAlpha

/-- Auxiliary iteration for `any(c.isalpha() for c in val)` when `val` is a
list: short-circuits on the first alphabetic string, raises
`AttributeError` on the first non-string element reached. -/
def pyAnyAlphaList : List JVal → Except PyExn Bool
  | [] => .ok false
  | .str s :: rest => if strIsAlpha s then .ok true else pyAnyAlphaList rest
  | _ :: _ => .error (.attributeError "object has no attribute isalpha")

/-- Python `any(c.isalpha() for c in val)`: characters of a string, elements
of a list, keys of a dict; `TypeError` for non-iterable values. -/
def pyAnyAlpha : JVal → Except PyExn Bool
  | .str s => .ok (s.data.any Char.isAlpha)
  | .arr xs => pyAnyAlphaList xs
  | .obj kvs => .ok (kvs.any (fun kv => strIsAlpha kv.1))
  | _ => .error (.typeError "argument of type is not iterable")

/-- Python `a + b` on JSON-derived values (bools coerce to ints, strings
and lists concatenate, anything else raises `TypeError`). -/
def pyAdd : JVal → JVal → Except PyExn JVal
  | .num a, .num b => .ok (.num (a + b))
  | .num a, .bool b => .ok (.num (a + (if b then 1 else 0)))
  | .bool a, .num b => .ok (.num ((if a then 1 else 0) + b))
  | .bool a, .bool b => .ok (.num ((if a then 1 else 0) + (if b then 1 else 0)))
  | .str a, .str b => .ok (.str (a ++ b))
  | .arr a, .arr b => .ok (.arr (a ++ b))
  | _, _ => .error (.typeError "unsupported operand type for +")

/-- Python `v > 0` on JSON-derived values. -/
def pyGtZero : JVal → Except PyExn Bool
  | .num n => .ok (decide (0 < n))
  | .bool b => .ok b
  | _ => .error (.typeError "not supported between instances")

mutual

/-- Python `repr` of a JSON-derived value (string escaping inside
containers is not modelled; the code never branches on this text). -/
def pyRepr : JVal → String
  | .null => "None"
  | .bool b => if b then "True" else "False"
  | .num n => toString n
  | .str s => "\x27" ++ s ++ "\x27"
  | .arr xs => "[" ++ pyReprList xs ++ "]"
  | .obj kvs => "\x7b" ++ pyReprObj kvs ++ "\x7d"
termination_by v => sizeOf v

/-- Comma-separated `repr` of list elements. -/
def pyReprList : List JVal → String
  | [] => ""
  | [x] => pyRepr x
  | x :: y :: rest => pyRepr x ++ ", " ++ pyReprList (y :: rest)
termination_by xs => sizeOf xs

/-- Comma-separated `repr` of dict entries. -/
def pyReprObj : List (String × JVal) → String
  | [] => ""
  | [(k, v)] => "\x27" ++ k ++ "\x27: " ++ pyRepr v
  | (k, v) :: e :: rest =>
      "\x27" ++ k ++ "\x27: " ++ pyRepr v ++ ", " ++ pyReprObj (e :: rest)
termination_by kvs => sizeOf kvs

end

/-- Python `str(v)` (as used in f-strings): identity on strings, `repr`
elsewhere. -/
def pyStr : JVal → String
  | .str s => s
  | v => pyRepr v

-- ======================================================================
-- ImportResult (Transfer.py lines 41-50)
-- ======================================================================

/-- Standardized result object for a batch import. -/
structure ImportResult where
  success : Bool
  status_code : Int
  message : String
  conflicts : List String
  deriving DecidableEq

/-- The orchestrator's failure classification:
`"Connection/Network Error" in result.message`. -/
def isNetworkError (r : ImportResult) : Bool :=
  containsSubstr "Connection/Network Error" r.message

-- ======================================================================
-- DHIS2Client._sanitize_batch (Transfer.py lines 222-266)
-- ======================================================================

/-- The sentinel in the org-unit mapping meaning "no destination
equivalent, drop the record". -/
def dropSentinel : JVal := JVal.str "REPLACE_WITH_DEV_UID"

/-- Step 3 of the per-item sanitization (`# 3. Apply Data Element Rules`):
email/phone value fixups driven by the `dataElement` mapping.  Wrapped in
`some` for uniformity with the org-unit step that may drop the record. -/
def sanitizeDE (deRules : JVal) (item3 : Item) : Except PyExn (Option Item) :=
  let de := pyGetD item3 "dataElement" JVal.null
  match pyIn de deRules with
  | .error e => .error e
  | .ok false => .ok (some item3)
  | .ok true =>
    match pyIndex deRules de with
    | .error e => .error e
    | .ok rule =>
      let val := pyGetD item3 "value" (JVal.str "")
      match pyDictGetD rule "fix_email" JVal.null with
      | .error e => .error e
      | .ok fe =>
        if pyTruthy fe then
          match pyIn (JVal.str "@") val with
          | .error e => .error e
          | .ok hasAt =>
            if !hasAt then
              .ok (some (setKV item3 "value" (JVal.str "invalid_fixed@example.com")))
            else .ok (some item3)
        else
          match pyDictGetD rule "fix_phone" JVal.null with
          | .error e => .error e
          | .ok fp =>
            if pyTruthy fp then
              match pyAnyAlpha val with
              | .error e => .error e
              | .ok hasAlpha =>
                if hasAlpha then
                  .ok (some (setKV item3 "value" (JVal.str "0000000000")))
                else .ok (some item3)
            else .ok (some item3)

/-- Step 1 of the per-item sanitization (`# 1. Map Category Option
Combos`), shared by the two near-identical blocks for
`categoryOptionCombo` and `attributeOptionCombo`: if `item.get(key)` is in
the COC mapping, rewrite `item[key]` to the mapped value. -/
def cocStep (cocMap : JVal) (key : String) (item : Item) : Except PyExn Item :=
  let v := pyGetD item key JVal.null
  match pyIn v cocMap with
  | .error e => .error e
  | .ok false => .ok item
  | .ok true =>
    match pyIndex cocMap v with
    | .error e => .error e
    | .ok w => .ok (setKV item key w)

/-- Step 2 of the per-item sanitization (`# 2. Map Organisation Units &
Skip if Missing`) followed by step 3: if `item.get('orgUnit')` is in the
org-unit mapping, drop the record when it maps to the sentinel, otherwise
rewrite it; then apply the data-element fixups. -/
def ouStep (deRules ouMap : JVal) (item2 : Item) : Except PyExn (Option Item) :=
  let ou := pyGetD item2 "orgUnit" JVal.null
  match pyIn ou ouMap with
  | .error e => .error e
  | .ok false => sanitizeDE deRules item2
  | .ok true =>
    match pyIndex ouMap ou with
    | .error e => .error e
    | .ok mapped =>
      if pyEq mapped dropSentinel then .ok none
      else sanitizeDE deRules (setKV item2 "orgUnit" mapped)

/-- One iteration of the `for item in batch` loop of `_sanitize_batch`:
category-option-combo mapping, org-unit mapping (with drop sentinel), then
data-element value fixups.  `none` means the record was dropped
(`continue`). -/
def sanitizeItem (cocMap deRules ouMap : JVal) (item0 : Item) : Except PyExn (Option Item) :=
  match cocStep cocMap "categoryOptionCombo" item0 with
  | .error e => .error e
  | .ok item1 =>
    match cocStep cocMap "attributeOptionCombo" item1 with
    | .error e => .error e
    | .ok item2 => ouStep deRules ouMap item2

/-- The `for` loop of `_sanitize_batch`: records surviving sanitization, in
order. -/
def sanitizeLoop (cocMap deRules ouMap : JVal) : List Item → Except PyExn (List Item)
  | [] => .ok []
  | item :: rest =>
      match sanitizeItem cocMap deRules ouMap item with
      | .error e => .error e
      | .ok r =>
        match sanitizeLoop cocMap deRules ouMap rest with
        | .error e => .error e
        | .ok rs =>
          .ok (match r with
               | none => rs
               | some j => j :: rs)

/-- `DHIS2Client._sanitize_batch(batch)`, with `mappings` the value loaded
by `_load_mappings` (an empty dict when `mappings.json` is missing or
unreadable). -/
def sanitize_batch (mappings : JVal) (batch : List Item) : Except PyExn (List Item) :=
  match pyDictGetD mappings "categoryOptionCombo" (JVal.obj []) with
  | .error e => .error e
  | .ok cocMap =>
    match pyDictGetD mappings "dataElement" (JVal.obj []) with
    | .error e => .error e
    | .ok deRules =>
      match pyDictGetD mappings "orgUnit" (JVal.obj []) with
      | .error e => .error e
      | .ok ouMap => sanitizeLoop cocMap deRules ouMap batch

-- ======================================================================
-- DHIS2Client._parse_response (Transfer.py lines 306-357)
-- ======================================================================

/-- The `conflicts` extraction of `_parse_response` (lines 324-326):
`[str(c) for c in response_json.get('conflicts', [])][:5]` guarded by
`'conflicts' in response_json`.  Iterating a string yields its characters,
a dict its keys; non-iterable values raise `TypeError`. -/
def extractConflicts (j : JVal) : Except PyExn (List String) :=
  match pyIn (JVal.str "conflicts") j with
  | .error e => .error e
  | .ok false => .ok []
  | .ok true =>
    match pyDictGetD j "conflicts" (JVal.arr []) with
    | .error e => .error e
    | .ok v =>
      match v with
      | .arr xs => .ok ((xs.map pyStr).take 5)
      | .str s => .ok ((s.data.map (fun c => String.mk [c])).take 5)
      | .obj kvs => .ok ((kvs.map (fun kv => kv.1)).take 5)
      | _ => .error (.typeError "object is not iterable")

/-- `DHIS2Client._parse_response(response_json)`: classifies a parsed 2xx
response body.  Exceptions escape to `send_batch`'s `except` clause. -/
def parse_response (j : JVal) : Except PyExn ImportResult :=
  match pyIn (JVal.str "importCount") j with
  | .error e => .error e
  | .ok true =>
    match pyIndex j (JVal.str "importCount") with
    | .error e => .error e
    | .ok counts =>
      match pyDictGetD counts "ignored" (JVal.num 0) with
      | .error e => .error e
      | .ok ignoredV =>
        match pyDictGetD counts "imported" (JVal.num 0) with
        | .error e => .error e
        | .ok importedV =>
          match pyDictGetD counts "updated" (JVal.num 0) with
          | .error e => .error e
          | .ok updatedV =>
            match pyDictGetD counts "deleted" (JVal.num 0) with
            | .error e => .error e
            | .ok deletedV =>
              match pyDictGetD j "status" JVal.null with
              | .error e => .error e
              | .ok status =>
                match pyAdd importedV updatedV with
                | .error e => .error e
                | .ok iu =>
                  match pyAdd iu deletedV with
                  | .error e => .error e
                  | .ok totalSuccess =>
                    match pyAdd totalSuccess ignoredV with
                    | .error e => .error e
                    | .ok totalProcessed =>
                      match extractConflicts j with
                      | .error e => .error e
                      | .ok conflicts =>
                        if pyEq status (JVal.str "ERROR") && pyEq totalSuccess (JVal.num 0) then
                          let tpS := pyStr totalProcessed
                          .ok ⟨false, 200, s!"HARD FAILURE. All {tpS} records rejected.", conflicts⟩
                        else
                          match pyGtZero ignoredV with
                          | .error e => .error e
                          | .ok ignPos =>
                            if ignPos then
                              match pyGtZero totalSuccess with
                              | .error e => .error e
                              | .ok tsPos =>
                                if tsPos then
                                  let imS := pyStr importedV
                                  let upS := pyStr updatedV
                                  let igS := pyStr ignoredV
                                  .ok ⟨true, 200, s!"Partial Success. Imp:{imS} Upd:{upS} Ign:{igS}", conflicts⟩
                                else if pyEq totalSuccess (JVal.num 0) && !pyEq status (JVal.str "ERROR") then
                                  let igS := pyStr ignoredV
                                  .ok ⟨true, 200, s!"All {igS} records already exist (duplicates). No update needed.", conflicts⟩
                                else
                                  let imS := pyStr importedV
                                  let upS := pyStr updatedV
                                  let deS := pyStr deletedV
                                  .ok ⟨true, 200, s!"Success. Imp:{imS} Upd:{upS} Del:{deS}", []⟩
                            else
                              let imS := pyStr importedV
                              let upS := pyStr updatedV
                              let deS := pyStr deletedV
                              .ok ⟨true, 200, s!"Success. Imp:{imS} Upd:{upS} Del:{deS}", []⟩
  | .ok false =>
    match pyIn (JVal.str "status") j with
    | .error e => .error e
    | .ok true =>
      match pyIn (JVal.str "bundleReport") j with
      | .error e => .error e
      | .ok true =>
        match pyIndex j (JVal.str "status") with
        | .error e => .error e
        | .ok status =>
          if pyEq status (JVal.str "OK") then
            .ok ⟨true, 200, "Tracker Bundle Imported Successfully", []⟩
          else
            let stS := pyStr status
            .ok ⟨false, 200, s!"Tracker Error: {stS}", []⟩
      | .ok false => .ok ⟨true, 200, "Request received (parsing unavailable)", []⟩
    | .ok false => .ok ⟨true, 200, "Request received (parsing unavailable)", []⟩

-- ======================================================================
-- DHIS2Client.send_batch (Transfer.py lines 268-304)
-- ======================================================================

/-- The configuration fields `send_batch` reads.  URL construction,
credentials and the transport-level retry adapter are connection plumbing
with no influence on the result classification and are not modelled. -/
structure MigrationConfig where
  dry_run : Bool
  endpoint_type : String
  async_tracker : Bool
  json_list_key : String

/-- Outcome of `self.session.post(...)` as seen by `send_batch`: either a
response (status code, the result of `response.json()`, and
`response.text`) or an exception raised by the transport layer after the
bounded adapter-level retries. -/
inductive PostOutcome where
  | resp (status : Int) (body : Except String JVal) (text : String) : PostOutcome
  | exn (e : String) : PostOutcome

/-- Body of the `try:` block of `send_batch` (everything from the POST to
the classification; `pollRes` abstracts `_poll_tracker_job(job_id)`, which
always returns an `ImportResult` without raising). -/
def sendTryBlock (cfg : MigrationConfig) (pollRes : JVal → ImportResult)
    (post : PostOutcome) : Except PyExn ImportResult :=
  match post with
  | .exn e => .error (.requestExc e)
  | .resp status body text =>
    if 400 ≤ status ∧ status < 500 then
      .ok ⟨false, status, "Client Error: " ++ text, []⟩
    else if 200 ≤ status ∧ status < 300 then
      match body with
      | .error e => .error (.requestExc e)
      | .ok j =>
        if cfg.endpoint_type = "tracker" ∧ cfg.async_tracker then
          match pyIn (JVal.str "response") j with
          | .error e => .error e
          | .ok hasResp =>
            match (if hasResp then
                     match pyDictGetD j "response" (JVal.obj []) with
                     | .error e => .error e
                     | .ok inner => pyIn (JVal.str "id") inner
                   else .ok false : Except PyExn Bool) with
            | .error e => .error e
            | .ok hasId =>
              if hasResp && hasId then
                match pyIndex j (JVal.str "response") with
                | .error e => .error e
                | .ok respObj =>
                  match pyIndex respObj (JVal.str "id") with
                  | .error e => .error e
                  | .ok jobId => .ok (pollRes jobId)
              else parse_response j
        else parse_response j
    else if 500 ≤ status ∧ status < 600 then
      .error (.requestExc ("HTTPError " ++ toString status))
    else .ok ⟨false, 0, "Unknown State", []⟩

/-- `DHIS2Client.send_batch(batch)`.  Note that `_sanitize_batch` runs
OUTSIDE the `try:` block, so its exceptions propagate to the caller, while
everything inside the block is converted by the `except` clause into a
"Connection/Network Error" result. -/
def send_batch (cfg : MigrationConfig) (mappings : JVal)
    (pollRes : JVal → ImportResult) (post : PostOutcome)
    (batch : List Item) : Except PyExn ImportResult :=
  if cfg.dry_run then .ok ⟨true, 200, "Dry Run Success", []⟩
  else
    match sanitize_batch mappings batch with
    | .error e => .error e
    | .ok _sanitized =>
      .ok (match sendTryBlock cfg pollRes post with
           | .ok r => r
           | .error e => ⟨false, 0, "Connection/Network Error: " ++ pyExnStr e, []⟩)

-- ======================================================================
-- DHIS2Client._poll_tracker_job (Transfer.py lines 169-209)
-- ======================================================================

/-- Outcome of one `self.session.get(job_url)` while polling: a 200
response with the result of `response.json()`, any other status with
`response.text`, or a raised exception. -/
inductive PollResponse where
  | ok200 (body : Except String JVal) : PollResponse
  | other (code : Int) (text : String) : PollResponse
  | exn (e : String) : PollResponse

/-- The `while elapsed < max_wait` loop of `_poll_tracker_job`.
`responses` gives the outcome of the n-th GET.  `elapsed` and `backoff`
are exact here (ℚ): every value the Python floats take in this loop
(products of 1.5-powers bounded by 10, and their sums below
`max_wait + 10`) is a dyadic rational far below the 53-bit rounding
threshold, so float arithmetic is exact on them.  `fuel` bounds the
iteration count for the embedding; since `backoff ≥ 1` throughout, any
`fuel ≥ max_wait` is enough (see the theorems).  The returned list holds
the argument of each `time.sleep(backoff)` performed. -/
def pollGo (responses : Nat → PollResponse) (maxWait : Nat) :
    Nat → Nat → ℚ → ℚ → Option (ImportResult × List ℚ)
  | fuel, i, elapsed, backoff =>
    if elapsed < (maxWait : ℚ) then
      match fuel with
      | 0 => none
      | fuel' + 1 =>
        match responses i with
        | .exn e => some (⟨false, 0, "Error polling tracker job: " ++ e, []⟩, [])
        | .other code text => some (⟨false, code, "Failed to poll job: " ++ text, []⟩, [])
        | .ok200 body =>
          match body with
          | .error e => some (⟨false, 0, "Error polling tracker job: " ++ e, []⟩, [])
          | .ok jobData =>
            match pyDictGetD jobData "status" (JVal.str "RUNNING") with
            | .error ex =>
                some (⟨false, 0, "Error polling tracker job: " ++ pyExnStr ex, []⟩, [])
            | .ok status =>
              if pyEq status (JVal.str "COMPLETED") then
                some (⟨true, 200, "Tracker job completed successfully", []⟩, [])
              else if pyEq status (JVal.str "ERROR") then
                match pyDictGetD jobData "message" (JVal.str "Unknown error") with
                | .error ex =>
                    some (⟨false, 0, "Error polling tracker job: " ++ pyExnStr ex, []⟩, [])
                | .ok m =>
                    let mS := pyStr m
                    some (⟨false, 200, s!"Tracker job failed: {mS}", []⟩, [])
              else if pyEq status (JVal.str "RUNNING") || pyEq status (JVal.str "PENDING") then
                match pollGo responses maxWait fuel' (i + 1) (elapsed + backoff)
                        (min (backoff * (3 / 2)) 10) with
                | none => none
                | some (r, sleeps) => some (r, backoff :: sleeps)
              else
                let stS := pyStr status
                some (⟨false, 200, s!"Unknown tracker job status: {stS}", []⟩, [])
    else some (⟨false, 0, "Tracker job timeout after " ++ toString maxWait ++ "s", []⟩, [])

/-- `DHIS2Client._poll_tracker_job(job_id, max_wait)`: the loop starting
from `elapsed = 0`, `backoff = 1`. -/
def poll_tracker_job (responses : Nat → PollResponse) (maxWait fuel : Nat) :
    Option (ImportResult × List ℚ) :=
  pollGo responses maxWait fuel 0 0 1

-- ======================================================================
-- MigrationService.run (Transfer.py lines 470-525)
-- ======================================================================

/-- Terminal outcome of the inner `while True` recovery loop for one
batch: how many times the batch was sent and how many seconds were spent
in the fixed 10-second network-retry sleeps before the terminal
transition. -/
inductive BatchOutcome where
  | delivered (sends waited : Nat) : BatchOutcome
  | skipped (sends waited : Nat) : BatchOutcome
  deriving DecidableEq

/-- The inner `while True` loop of `MigrationService.run` for a single
batch.  `sink attempt` is the `ImportResult` of the (attempt+1)-th
`self.sink.send_batch(batch)` call.  Success breaks the loop; a failure
whose message contains the network marker sleeps 10 s and retries the same
batch; any other failure skips the batch.  `fuel` bounds the embedding's
unrolling; `none` means the loop was still retrying after `fuel` sends
(the Python loop has no bound of its own). -/
def processBatchLoop (sink : Nat → ImportResult) : Nat → Nat → Option BatchOutcome
  | _, 0 => none
  | attempt, fuel + 1 =>
    let r := sink attempt
    if r.success then some (.delivered (attempt + 1) (10 * attempt))
    else if isNetworkError r then processBatchLoop sink (attempt + 1) fuel
    else some (.skipped (attempt + 1) (10 * attempt))

/-- The counters of `MigrationService.run` / `print_summary`. -/
structure RunSummary where
  total_records : Nat
  total_batches : Nat
  failed_batches : Nat
  deriving DecidableEq

/-- The `for batch in batch_stream` loop of `MigrationService.run`:
`respond b a` is the sink's result for the (a+1)-th send of batch `b`.
Returns the final counters and, per batch, its `(sends, waited)` pair;
`none` when some batch was still in its network-retry loop after `fuel`
sends. -/
def runGo (respond : Nat → Nat → ImportResult) (fuel : Nat) :
    Nat → List (List Item) → RunSummary → Option (RunSummary × List (Nat × Nat))
  | _, [], s => some (s, [])
  | bidx, b :: rest, s =>
    let s1 : RunSummary := { s with total_batches := s.total_batches + 1 }
    match processBatchLoop (respond bidx) 0 fuel with
    | none => none
    | some (.delivered sends waited) =>
      match runGo respond fuel (bidx + 1) rest
              { s1 with total_records := s1.total_records + b.length } with
      | none => none
      | some (s2, log) => some (s2, (sends, waited) :: log)
    | some (.skipped sends waited) =>
      match runGo respond fuel (bidx + 1) rest
              { s1 with failed_batches := s1.failed_batches + 1 } with
      | none => none
      | some (s2, log) => some (s2, (sends, waited) :: log)

/-- `MigrationService.run` over an already-batched stream, starting from
zeroed counters. -/
def run_migration (respond : Nat → Nat → ImportResult) (fuel : Nat)
    (batches : List (List Item)) : Option (RunSummary × List (Nat × Nat)) :=
  runGo respond fuel 0 batches ⟨0, 0, 0⟩

-- ======================================================================
-- Reference functions and concrete fixtures used by the theorems
-- ======================================================================

/-- Plain greedy size-`N` chunking (same flush discipline as `chunkGo` with
the org-unit break never firing); the batcher degenerates to this on a
same-org-unit stream. -/
def simpleChunkGo (N : Nat) : List Item → List Item → List (List Item)
  | [], cur => if cur.isEmpty then [] else [cur]
  | item :: rest, cur =>
      if N ≤ cur.length + 1 then (cur ++ [item]) :: simpleChunkGo N rest []
      else simpleChunkGo N rest (cur ++ [item])

/-- Sizes of the chunks `simpleChunkGo N` produces, from the remaining
stream length and the in-progress batch length alone. -/
def chunkSizes (N : Nat) : Nat → Nat → List Nat
  | 0, c => if c = 0 then [] else [c]
  | r + 1, c => if N ≤ c + 1 then (c + 1) :: chunkSizes N r 0 else chunkSizes N r (c + 1)

/-- Fixture: a record for org unit `OU1`. -/
def fixA : Item := [("orgUnit", JVal.str "OU1"), ("value", JVal.num 1)]

/-- Fixture: a record for org unit `OU2`. -/
def fixB : Item := [("orgUnit", JVal.str "OU2"), ("value", JVal.num 2)]

/-- Fixture: a record with no `orgUnit` key. -/
def fixM : Item := [("value", JVal.num 3)]

/-- Fixture: a stream of 25 records all for org unit `OU1`. -/
def fix25 : List Item := List.replicate 25 fixA

/-- Fixture: an org-unit mapping with one sentinel entry and one real entry. -/
def fixOuMap : List (String × JVal) := [("OU1", dropSentinel), ("OU2", JVal.str "NEW2")]

/-- Fixture: a data-element mapping with one email-fixup rule. -/
def fixDeMap : List (String × JVal) := [("DE1", JVal.obj [("fix_email", JVal.bool true)])]

/-- Fixture: a mappings file carrying an email-fixup rule for `DE1`. -/
def mBug : JVal :=
  JVal.obj [("dataElement", JVal.obj [("DE1", JVal.obj [("fix_email", JVal.bool true)])])]

/-- Fixture: a record whose `value` is the integer 5 (as produced, e.g., by the dummy file `main` generates). -/
def itemBug : Item := [("dataElement", JVal.str "DE1"), ("value", JVal.num 5)]

/-- Fixture: a non-dry-run aggregate-endpoint configuration. -/
def cfgAggregate : MigrationConfig :=
  { dry_run := false, endpoint_type := "aggregate", async_tracker := false,
    json_list_key := "dataValues" }

/-- Fixture: an import summary with all counts 0 and status ERROR. -/
def bodyHard : List (String × JVal) :=
  [("importCount", JVal.obj [("imported", JVal.num 0), ("updated", JVal.num 0),
     ("ignored", JVal.num 0), ("deleted", JVal.num 0)]),
   ("status", JVal.str "ERROR")]

/-- A poll response that keeps the loop waiting: HTTP 200 whose JSON body carries status RUNNING or PENDING. -/
def keepsPolling (p : PollResponse) : Prop :=
  ∃ body, p = PollResponse.ok200 (Except.ok body) ∧
    (pyDictGetD body "status" (JVal.str "RUNNING") = .ok (JVal.str "RUNNING") ∨
     pyDictGetD body "status" (JVal.str "RUNNING") = .ok (JVal.str "PENDING"))

-- ======================================================================
-- THEOREMS
-- ======================================================================

/-- Every record of the stream ends up in exactly one emitted batch, in
stream order: flattening the batcher's output returns the input. -/
theorem chunkGo_flatten (N : Nat) (l : List Item) :
    ∀ cur curOu, (chunkGo N l cur curOu).flatten = cur ++ l := by
  induction l with
  | nil => intro cur curOu; cases cur <;> simp [chunkGo]
  | cons item rest ih =>
    intro cur curOu
    rw [chunkGo]
    by_cases hb : (!curOu.isNull && !pyEq (itemOrgUnit item) curOu) = true
    · rw [if_pos hb]
      by_cases hN : N ≤ 1
      · rw [if_pos hN]; cases cur <;> simp [ih]
      · rw [if_neg hN]; cases cur <;> simp [ih]
    · rw [if_neg hb]
      by_cases hN : N ≤ cur.length + 1
      · rw [if_pos hN]; simp [ih]
      · rw [if_neg hN]; simp [ih]

/-- Membership in a conditional flush `if cur.isEmpty then [] else [cur]`
forces the flushed batch to be the non-empty batch in progress. -/
theorem mem_flushed {b cur : List Item}
    (h : b ∈ (if cur.isEmpty then ([] : List (List Item)) else [cur])) :
    b = cur ∧ cur ≠ [] := by
  cases cur with
  | nil => simp at h
  | cons x xs => simp at h; exact ⟨h, by simp⟩

/-- Size invariant of the batcher loop: starting from a batch in progress
strictly below the cap, every emitted batch is non-empty and within the
cap. -/
theorem chunkGo_batches (N : Nat) (l : List Item) :
    ∀ cur curOu, cur.length < N →
      ∀ b ∈ chunkGo N l cur curOu, b ≠ [] ∧ b.length ≤ N := by
  induction l with
  | nil =>
    intro cur curOu hlt b hb
    obtain ⟨rfl, hne⟩ := mem_flushed hb
    exact ⟨hne, by omega⟩
  | cons item rest ih =>
    intro cur curOu hlt b hb
    rw [chunkGo] at hb
    by_cases hbr : (!curOu.isNull && !pyEq (itemOrgUnit item) curOu) = true
    · rw [if_pos hbr] at hb
      by_cases hN : N ≤ 1
      · rw [if_pos hN] at hb
        rcases List.mem_append.mp hb with h1 | h2
        · obtain ⟨rfl, hne⟩ := mem_flushed h1
          exact ⟨hne, by omega⟩
        · rcases List.mem_append.mp h2 with h3 | h4
          · rw [List.mem_singleton] at h3
            subst h3
            exact ⟨by simp, by simp; omega⟩
          · exact ih [] (itemOrgUnit item) (by simp; omega) b h4
      · rw [if_neg hN] at hb
        rw [not_le] at hN
        rcases List.mem_append.mp hb with h1 | h2
        · obtain ⟨rfl, hne⟩ := mem_flushed h1
          exact ⟨hne, by omega⟩
        · exact ih [item] (itemOrgUnit item) (by simp; omega) b h2
    · rw [if_neg hbr] at hb
      by_cases hN : N ≤ cur.length + 1
      · rw [if_pos hN] at hb
        rcases List.mem_append.mp hb with h1 | h2
        · rw [List.mem_singleton] at h1
          subst h1
          refine ⟨by simp, ?_⟩
          rw [List.length_append, List.length_singleton]
          omega
        · exact ih [] (itemOrgUnit item) (by simp; omega) b h2
      · rw [if_neg hN] at hb
        rw [not_le] at hN
        exact ih (cur ++ [item]) (itemOrgUnit item)
          (by rw [List.length_append, List.length_singleton]; omega) b hb

/-- On a stream whose records all compare `==`-equal on `orgUnit` (with the
batch-in-progress state consistent with that), the org-unit break never
fires and the batcher is plain greedy chunking. -/
theorem chunkGo_same_ou (N : Nat) (l : List Item) :
    ∀ cur curOu,
      (curOu = JVal.null ∨ ∀ r ∈ l, pyEq (itemOrgUnit r) curOu = true) →
      (∀ r ∈ l, ∀ r' ∈ l, pyEq (itemOrgUnit r) (itemOrgUnit r') = true) →
      chunkGo N l cur curOu = simpleChunkGo N l cur := by
  induction l with
  | nil => intro cur curOu _ _; rfl
  | cons item rest ih =>
    intro cur curOu hcur hall
    have hbr : (!curOu.isNull && !pyEq (itemOrgUnit item) curOu) = false := by
      rcases hcur with rfl | h
      · simp [JVal.isNull]
      · simp [h item (by simp)]
    rw [chunkGo, hbr]
    have hnext : (itemOrgUnit item = JVal.null ∨
        ∀ r ∈ rest, pyEq (itemOrgUnit r) (itemOrgUnit item) = true) :=
      Or.inr (fun r hr => hall r (by simp [hr]) item (by simp))
    have hall' : ∀ r ∈ rest, ∀ r' ∈ rest, pyEq (itemOrgUnit r) (itemOrgUnit r') = true :=
      fun r hr r' hr' => hall r (by simp [hr]) r' (by simp [hr'])
    rw [simpleChunkGo]
    rw [if_neg (by decide : ¬ (false = true))]
    by_cases hN : N ≤ cur.length + 1
    · rw [if_pos hN, if_pos hN]
      simp [ih [] (itemOrgUnit item) hnext hall']
    · rw [if_neg hN, if_neg hN]
      exact ih (cur ++ [item]) (itemOrgUnit item) hnext hall'

/-- The chunk sizes of greedy chunking depend only on the lengths. -/
theorem simpleChunkGo_sizes (N : Nat) (l : List Item) :
    ∀ cur, (simpleChunkGo N l cur).map List.length = chunkSizes N l.length cur.length := by
  induction l with
  | nil =>
    intro cur
    cases cur <;> simp [simpleChunkGo, chunkSizes]
  | cons item rest ih =>
    intro cur
    rw [simpleChunkGo, List.length_cons, chunkSizes]
    by_cases hN : N ≤ cur.length + 1
    · rw [if_pos hN, if_pos hN]
      simp only [List.map_cons, List.length_append, List.length_singleton, ih []]
      rfl
    · rw [if_neg hN, if_neg hN]
      rw [ih (cur ++ [item]), List.length_append, List.length_singleton]

/-- Greedy chunking of `r + c` records (with `c < N` already in progress)
produces `⌈(r + c) / N⌉` chunks. -/
theorem chunkSizes_length (N : Nat) (hN : 1 ≤ N) :
    ∀ r c, c < N →
      (chunkSizes N r c).length = if r + c = 0 then 0 else (r + c + N - 1) / N := by
  intro r
  induction r with
  | zero =>
    intro c hc
    rw [chunkSizes]
    by_cases h0 : c = 0
    · simp [h0]
    · rw [if_neg h0, if_neg (by omega), List.length_singleton]
      have hd : (0 + c + N - 1) / N = 1 :=
        Nat.div_eq_of_lt_le (by omega) (by omega)
      rw [hd]
  | succ r ih =>
    intro c hc
    rw [chunkSizes]
    by_cases hcap : N ≤ c + 1
    · rw [if_pos hcap, List.length_cons, ih 0 (by omega)]
      have hc1 : c + 1 = N := by omega
      by_cases hr : r = 0
      · subst hr
        rw [if_pos rfl, if_neg (by omega)]
        have hd : (0 + 1 + c + N - 1) / N = 1 :=
          Nat.div_eq_of_lt_le (by omega) (by omega)
        rw [hd]
      · rw [if_neg (by omega : ¬ (r + 0 = 0)), if_neg (by omega : ¬ (r + 1 + c = 0))]
        have he : r + 1 + c + N - 1 = (r + 0 + N - 1) + N := by omega
        rw [he, Nat.add_div_right _ (by omega)]
    · rw [if_neg hcap, ih (c + 1) (by omega), if_neg (by omega), if_neg (by omega)]
      have he : r + (c + 1) + N - 1 = r + 1 + c + N - 1 := by omega
      rw [he]

/-- C5: for every finite record stream and every maximum batch size N ≥ 1,
every batch emitted by `Batcher.chunk_by_org_unit` is non-empty and
contains at most N records. -/
theorem chunk_batches_bounded (records : List Item) (N : Nat) (hN : 1 ≤ N) :
    ∀ b ∈ chunk_by_org_unit records N, b ≠ [] ∧ b.length ≤ N :=
  chunkGo_batches N records [] JVal.null (by simpa using hN)

/-- Witness for C5 at the one-record stream with cap 1. -/
theorem chunk_batches_bounded_witness :
    ([fixA] : List Item) ≠ [] ∧ ([fixA] : List Item).length ≤ 1 := by
  have h : chunk_by_org_unit [fixA] 1 = [[fixA]] := by
    simp [chunk_by_org_unit, chunkGo]
  exact chunk_batches_bounded [fixA] 1 (le_refl 1) [fixA]
    (by rw [h]; exact List.mem_singleton.mpr rfl)

/-- C6: a non-empty stream whose records all carry the same `orgUnit`
value, chunked with cap N ≥ 1, yields exactly ⌈total/N⌉ batches whose
concatenation is the stream itself; in particular 25 same-org-unit records
with cap 10 yield three batches of sizes 10, 10, 5 in stream order. -/
theorem chunk_same_ou_count (records : List Item) (N : Nat)
    (hN : 1 ≤ N) (hne : records ≠ [])
    (hsame : ∀ r ∈ records, ∀ r' ∈ records,
        pyEq (itemOrgUnit r) (itemOrgUnit r') = true) :
    (chunk_by_org_unit records N).length = (records.length + N - 1) / N ∧
    (chunk_by_org_unit records N).flatten = records ∧
    (records.length = 25 → N = 10 →
      (chunk_by_org_unit records N).map List.length = [10, 10, 5]) := by
  have heq : chunk_by_org_unit records N = simpleChunkGo N records [] :=
    chunkGo_same_ou N records [] JVal.null (Or.inl rfl) hsame
  have hsz : (chunk_by_org_unit records N).map List.length
      = chunkSizes N records.length 0 := by
    rw [heq, simpleChunkGo_sizes]
    rfl
  refine ⟨?_, ?_, ?_⟩
  · have := congrArg List.length hsz
    rw [List.length_map] at this
    rw [this, chunkSizes_length N hN records.length 0 (by omega)]
    rw [if_neg (by simpa using hne)]
    congr 1
  · simpa using chunkGo_flatten N records [] JVal.null
  · intro h25 h10
    rw [hsz, h25, h10]
    decide

/-- Witness for C6 at 25 records for `OU1` with cap 10. -/
theorem chunk_same_ou_count_witness :
    (chunk_by_org_unit fix25 10).map List.length = [10, 10, 5] := by
  refine (chunk_same_ou_count fix25 10 (by omega) ?_ ?_).2.2 rfl rfl
  · intro h
    simp [fix25] at h
  · intro r hr r' hr'
    rw [List.eq_of_mem_replicate hr, List.eq_of_mem_replicate hr']
    simp [itemOrgUnit, pyGetD, lookupKV, fixA, pyEq]

/-- C4 counterexample: a stream transitioning from a missing `orgUnit` to
a present one is kept in a single batch — the claimed boundary between a
missing-orgUnit record and a following present-orgUnit record does not
occur, because the break condition requires the previous record's orgUnit
to be non-`None`. -/
theorem chunk_missing_to_present_counterexample :
    chunk_by_org_unit [fixM, fixA] 10 = [[fixM, fixA]] ∧
    (chunk_by_org_unit [fixM, fixA] 10).length = 1 := by
  constructor
  · simp [chunk_by_org_unit, chunkGo, itemOrgUnit, pyGetD, lookupKV, fixM, fixA, JVal.isNull]
  · simp [chunk_by_org_unit, chunkGo, itemOrgUnit, pyGetD, lookupKV, fixM, fixA, JVal.isNull]

/-- C4 (amended): below the size cap, a batch boundary occurs after a
record exactly when that record's `orgUnit` is present (non-`None`) and
the next record's `orgUnit` differs from it; in particular a present-to-
missing or present-to-different transition breaks the batch, while any
record following a missing-orgUnit record — missing or present — stays in
the same batch. -/
theorem chunk_boundary_rule (a b : Item) (N : Nat) (hN : 3 ≤ N) :
    ((itemOrgUnit a).isNull = true → chunk_by_org_unit [a, b] N = [[a, b]]) ∧
    ((itemOrgUnit a).isNull = false → pyEq (itemOrgUnit b) (itemOrgUnit a) = false →
        chunk_by_org_unit [a, b] N = [[a], [b]]) ∧
    ((itemOrgUnit a).isNull = false → pyEq (itemOrgUnit b) (itemOrgUnit a) = true →
        chunk_by_org_unit [a, b] N = [[a, b]]) := by
  have h1 : ¬ (N ≤ 0 + 1) := by omega
  have h2 : ¬ (N ≤ 1 + 1) := by omega
  have h3 : ¬ (N ≤ 1) := by omega
  refine ⟨?_, ?_, ?_⟩
  · intro hnull
    rw [chunk_by_org_unit, chunkGo]
    rw [if_neg (by simp [JVal.isNull])]
    rw [if_neg (by simpa using h1)]
    rw [chunkGo, hnull]
    simp only [Bool.not_true, Bool.false_and, Bool.false_eq_true, if_false]
    rw [if_neg (by simpa using h2)]
    rfl
  · intro hnn hne
    rw [chunk_by_org_unit, chunkGo]
    rw [if_neg (by simp [JVal.isNull])]
    rw [if_neg (by simpa using h1)]
    rw [chunkGo, hnn, hne]
    simp only [Bool.not_false, Bool.true_and, if_true]
    rw [if_neg (by simp : ¬ ((([] : List Item) ++ [a]).isEmpty = true))]
    rw [if_neg h3]
    rfl
  · intro hnn heq
    rw [chunk_by_org_unit, chunkGo]
    rw [if_neg (by simp [JVal.isNull])]
    rw [if_neg (by simpa using h1)]
    rw [chunkGo, hnn, heq]
    simp only [Bool.not_true, Bool.and_false, Bool.false_eq_true, if_false]
    rw [if_neg (by simpa using h2)]
    rfl

/-- Witness for the amended C4 at a present-to-different transition. -/
theorem chunk_boundary_rule_witness :
    chunk_by_org_unit [fixA, fixB] 10 = [[fixA], [fixB]] := by
  refine (chunk_boundary_rule fixA fixB 10 (by omega)).2.1 ?_ ?_
  · simp [itemOrgUnit, pyGetD, lookupKV, fixA, JVal.isNull]
  · simp [itemOrgUnit, pyGetD, lookupKV, fixA, fixB, pyEq]

/-- Lookup after a dict assignment: the assigned key reads the new value, every other key is untouched. -/
theorem lookupKV_setKV (m : List (String × JVal)) (k : String) (v : JVal) :
    ∀ q, lookupKV (setKV m k v) q = if k = q then some v else lookupKV m q := by
  induction m with
  | nil =>
    intro q
    by_cases h : k = q <;> simp [setKV, lookupKV, h]
  | cons kv rest ih =>
    intro q
    obtain ⟨k0, w⟩ := kv
    rw [setKV]
    by_cases h0 : k0 = k
    · rw [if_pos h0]
      subst h0
      rw [lookupKV, lookupKV]
      by_cases h : k0 = q
      · rw [if_pos h, if_pos h]
      · rw [if_neg h, if_neg h, if_neg h]
    · rw [if_neg h0, lookupKV, lookupKV]
      by_cases h : k0 = q
      · rw [if_pos h, if_pos h]
        subst h
        rw [if_neg (fun hh => h0 hh.symm)]
      · rw [if_neg h, if_neg h, ih q]

/-- A successful `cocStep` either leaves the item alone or rewrites exactly its own key. -/
theorem cocStep_shape (cocMap : JVal) (key : String) (item : Item) :
    ∀ j, cocStep cocMap key item = .ok j →
      j = item ∨ ∃ w, j = setKV item key w := by
  intro j h
  rw [cocStep] at h
  rcases h1 : pyIn (pyGetD item key JVal.null) cocMap with e | b
  · rw [h1] at h; exact absurd h (by simp)
  · rw [h1] at h
    cases b
    · simp at h; exact Or.inl h.symm
    · dsimp only at h
      rcases h2 : pyIndex cocMap (pyGetD item key JVal.null) with e | w
      · rw [h2] at h; exact absurd h (by simp)
      · rw [h2] at h
        simp at h
        exact Or.inr ⟨w, h.symm⟩

/-- A successful `cocStep` preserves the lookup of every other key. -/
theorem cocStep_preserves (cocMap : JVal) (key : String) (item j : Item) (q : String)
    (h : cocStep cocMap key item = .ok j) (hq : key ≠ q) :
    lookupKV j q = lookupKV item q := by
  rcases cocStep_shape cocMap key item j h with rfl | ⟨w, rfl⟩
  · rfl
  · rw [lookupKV_setKV, if_neg hq]

/-- A successful data-element fixup never drops the record and rewrites at most the `value` key. -/
theorem sanitizeDE_shape (deRules : JVal) (item3 : Item) :
    ∀ r, sanitizeDE deRules item3 = .ok r →
      ∃ j, r = some j ∧ (j = item3 ∨ ∃ w, j = setKV item3 "value" (JVal.str w)) := by
  intro r h
  rw [sanitizeDE] at h
  rcases h1 : pyIn (pyGetD item3 "dataElement" JVal.null) deRules with e | b
  · rw [h1] at h; exact absurd h (by simp)
  · rw [h1] at h
    cases b
    · simp at h
      exact ⟨item3, h.symm, Or.inl rfl⟩
    · dsimp only at h
      rcases h2 : pyIndex deRules (pyGetD item3 "dataElement" JVal.null) with e | rule
      · rw [h2] at h; exact absurd h (by simp)
      · rw [h2] at h
        dsimp only at h
        rcases h3 : pyDictGetD rule "fix_email" JVal.null with e | fe
        · rw [h3] at h; exact absurd h (by simp)
        · rw [h3] at h
          dsimp only at h
          by_cases hfe : pyTruthy fe = true
          · rw [if_pos hfe] at h
            rcases h4 : pyIn (JVal.str "@") (pyGetD item3 "value" (JVal.str "")) with e | hasAt
            · rw [h4] at h; exact absurd h (by simp)
            · rw [h4] at h
              dsimp only at h
              cases hasAt
              · simp at h
                exact ⟨_, h.symm, Or.inr ⟨_, rfl⟩⟩
              · simp at h
                exact ⟨item3, h.symm, Or.inl rfl⟩
          · rw [if_neg hfe] at h
            rcases h5 : pyDictGetD rule "fix_phone" JVal.null with e | fp
            · rw [h5] at h; exact absurd h (by simp)
            · rw [h5] at h
              dsimp only at h
              by_cases hfp : pyTruthy fp = true
              · rw [if_pos hfp] at h
                rcases h6 : pyAnyAlpha (pyGetD item3 "value" (JVal.str "")) with e | al
                · rw [h6] at h; exact absurd h (by simp)
                · rw [h6] at h
                  dsimp only at h
                  cases al
                  · simp at h
                    exact ⟨item3, h.symm, Or.inl rfl⟩
                  · simp at h
                    exact ⟨_, h.symm, Or.inr ⟨_, rfl⟩⟩
              · rw [if_neg hfp] at h
                simp at h
                exact ⟨item3, h.symm, Or.inl rfl⟩

/-- A successful `sanitizeItem` run factors through `ouStep` on an item whose `orgUnit`, `dataElement` and `value` entries are those of the original record. -/
theorem sanitizeItem_to_ouStep (cocMap deRules ouMap : JVal) (item0 : Item) (r : Option Item)
    (h : sanitizeItem cocMap deRules ouMap item0 = .ok r) :
    ∃ item2,
      lookupKV item2 "orgUnit" = lookupKV item0 "orgUnit" ∧
      lookupKV item2 "dataElement" = lookupKV item0 "dataElement" ∧
      lookupKV item2 "value" = lookupKV item0 "value" ∧
      ouStep deRules ouMap item2 = .ok r := by
  rw [sanitizeItem] at h
  rcases h1 : cocStep cocMap "categoryOptionCombo" item0 with e | item1
  · rw [h1] at h; exact absurd h (by simp)
  · rw [h1] at h
    dsimp only at h
    rcases h2 : cocStep cocMap "attributeOptionCombo" item1 with e | item2
    · rw [h2] at h; exact absurd h (by simp)
    · rw [h2] at h
      dsimp only at h
      refine ⟨item2, ?_, ?_, ?_, h⟩ <;>
        rw [cocStep_preserves cocMap _ item1 item2 _ h2 (by decide),
            cocStep_preserves cocMap _ item0 item1 _ h1 (by decide)]

/-- The sanitization loop processes a concatenation as the concatenation of the two runs. -/
theorem sanitizeLoop_append (cocMap deRules ouMap : JVal) :
    ∀ xs ys out, sanitizeLoop cocMap deRules ouMap (xs ++ ys) = .ok out →
      ∃ o1 o2, sanitizeLoop cocMap deRules ouMap xs = .ok o1 ∧
        sanitizeLoop cocMap deRules ouMap ys = .ok o2 ∧ out = o1 ++ o2 := by
  intro xs
  induction xs with
  | nil =>
    intro ys out h
    exact ⟨[], out, rfl, h, rfl⟩
  | cons x xs ih =>
    intro ys out h
    rw [List.cons_append, sanitizeLoop] at h
    rcases h1 : sanitizeItem cocMap deRules ouMap x with e | r
    · rw [h1] at h; exact absurd h (by simp)
    · rw [h1] at h
      dsimp only at h
      rcases h2 : sanitizeLoop cocMap deRules ouMap (xs ++ ys) with e | rs
      · rw [h2] at h; exact absurd h (by simp)
      · rw [h2] at h
        obtain ⟨o1, o2, ho1, ho2, rfl⟩ := ih ys rs h2
        simp only [Except.ok.injEq] at h
        cases r with
        | none =>
          refine ⟨o1, o2, ?_, ho2, by simpa using h.symm⟩
          rw [sanitizeLoop, h1, ho1]
        | some j =>
          refine ⟨j :: o1, o2, ?_, ho2, by simpa using h.symm⟩
          rw [sanitizeLoop, h1, ho1]

/-- A `get` with `None` default returning a string means the key is present with that string. -/
theorem pyGetD_null_str {item : Item} {k s : String}
    (h : pyGetD item k JVal.null = JVal.str s) :
    lookupKV item k = some (JVal.str s) := by
  rcases hl : lookupKV item k with _ | w
  · rw [pyGetD, hl] at h
    exact absurd h (by simp)
  · rw [pyGetD, hl] at h
    simp at h
    rw [h]

/-- A record whose `orgUnit` maps to the drop sentinel is dropped whenever sanitization does not raise. -/
theorem sanitizeItem_sentinel_drop (cocMap deRules : JVal)
    (ouKVs : List (String × JVal)) (item : Item) (s : String)
    (hou : pyGetD item "orgUnit" JVal.null = JVal.str s)
    (hsent : lookupKV ouKVs s = some dropSentinel) :
    ∀ r, sanitizeItem cocMap deRules (JVal.obj ouKVs) item = .ok r → r = none := by
  intro r h
  obtain ⟨item2, hou2, _, _, h2⟩ := sanitizeItem_to_ouStep _ _ _ _ _ h
  rw [ouStep] at h2
  rw [show pyGetD item2 "orgUnit" JVal.null = JVal.str s from by
        rw [pyGetD, hou2, pyGetD_null_str hou]; rfl] at h2
  rw [show pyIn (JVal.str s) (JVal.obj ouKVs) = .ok (lookupKV ouKVs s).isSome from rfl,
      hsent] at h2
  dsimp only [Option.isSome] at h2
  rw [show pyIndex (JVal.obj ouKVs) (JVal.str s) =
        (match lookupKV ouKVs s with
         | some v => .ok v
         | none => .error (.keyError s) : Except PyExn JVal) from rfl, hsent] at h2
  dsimp only at h2
  rw [if_pos (by simp [dropSentinel, pyEq])] at h2
  simpa using h2.symm

/-- C7: for every sanitization mapping, a record whose `orgUnit` maps to the sentinel `REPLACE_WITH_DEV_UID` is dropped and contributes nothing to the sanitized output batch wherever it sits; a record whose `orgUnit` maps to any other value comes out with its `orgUnit` replaced by the mapped value; and a record whose `orgUnit` is absent from the mapping keeps it unchanged. -/
theorem sanitize_org_unit_mapping (cocMap deRules : JVal) (ouKVs : List (String × JVal))
    (item : Item) (s : String)
    (hou : pyGetD item "orgUnit" JVal.null = JVal.str s) :
    (lookupKV ouKVs s = some dropSentinel →
       (∀ r, sanitizeItem cocMap deRules (JVal.obj ouKVs) item = .ok r → r = none) ∧
       (∀ pre post out,
          sanitizeLoop cocMap deRules (JVal.obj ouKVs) (pre ++ item :: post) = .ok out →
          ∃ o1 o2, sanitizeLoop cocMap deRules (JVal.obj ouKVs) pre = .ok o1 ∧
            sanitizeLoop cocMap deRules (JVal.obj ouKVs) post = .ok o2 ∧ out = o1 ++ o2)) ∧
    (∀ v, lookupKV ouKVs s = some v → pyEq v dropSentinel = false →
       ∀ j, sanitizeItem cocMap deRules (JVal.obj ouKVs) item = .ok (some j) →
         pyGetD j "orgUnit" JVal.null = v) ∧
    (lookupKV ouKVs s = none →
       ∀ j, sanitizeItem cocMap deRules (JVal.obj ouKVs) item = .ok (some j) →
         pyGetD j "orgUnit" JVal.null = JVal.str s) := by
  refine ⟨fun hsent => ⟨sanitizeItem_sentinel_drop cocMap deRules ouKVs item s hou hsent, ?_⟩,
          ?_, ?_⟩
  · intro pre post out h
    obtain ⟨o1, orest, ho1, horest, rfl⟩ := sanitizeLoop_append _ _ _ pre (item :: post) out h
    rw [sanitizeLoop] at horest
    rcases hi : sanitizeItem cocMap deRules (JVal.obj ouKVs) item with e | r
    · rw [hi] at horest; exact absurd horest (by simp)
    · obtain rfl := sanitizeItem_sentinel_drop cocMap deRules ouKVs item s hou hsent r hi
      rw [hi] at horest
      dsimp only at horest
      rcases h2 : sanitizeLoop cocMap deRules (JVal.obj ouKVs) post with e | o2
      · rw [h2] at horest; exact absurd horest (by simp)
      · rw [h2] at horest
        simp only [Except.ok.injEq] at horest
        refine ⟨o1, o2, ho1, rfl, ?_⟩
        rw [horest]
  · intro v hv hne j h
    obtain ⟨item2, hou2, _, _, h2⟩ := sanitizeItem_to_ouStep _ _ _ _ _ h
    rw [ouStep] at h2
    rw [show pyGetD item2 "orgUnit" JVal.null = JVal.str s from by
          rw [pyGetD, hou2, pyGetD_null_str hou]; rfl] at h2
    rw [show pyIn (JVal.str s) (JVal.obj ouKVs) = .ok (lookupKV ouKVs s).isSome from rfl,
        hv] at h2
    dsimp only [Option.isSome] at h2
    rw [show pyIndex (JVal.obj ouKVs) (JVal.str s) =
          (match lookupKV ouKVs s with
           | some w => .ok w
           | none => .error (.keyError s) : Except PyExn JVal) from rfl, hv] at h2
    dsimp only at h2
    rw [if_neg (by rw [hne]; exact Bool.false_ne_true)] at h2
    obtain ⟨j2, hj2, hcase⟩ := sanitizeDE_shape deRules _ _ h2
    obtain rfl : j = j2 := by simpa using hj2
    have hjv : lookupKV j "orgUnit" = some v := by
      rcases hcase with rfl | ⟨w, rfl⟩
      · rw [lookupKV_setKV, if_pos rfl]
      · rw [lookupKV_setKV, if_neg (by decide), lookupKV_setKV, if_pos rfl]
    rw [pyGetD, hjv]
    rfl
  · intro hnone j h
    obtain ⟨item2, hou2, _, _, h2⟩ := sanitizeItem_to_ouStep _ _ _ _ _ h
    rw [ouStep] at h2
    have hou2s : pyGetD item2 "orgUnit" JVal.null = JVal.str s := by
      rw [pyGetD, hou2, pyGetD_null_str hou]; rfl
    rw [hou2s] at h2
    rw [show pyIn (JVal.str s) (JVal.obj ouKVs) = .ok (lookupKV ouKVs s).isSome from rfl,
        hnone] at h2
    dsimp only [Option.isSome] at h2
    obtain ⟨j2, hj2, hcase⟩ := sanitizeDE_shape deRules _ _ h2
    obtain rfl : j = j2 := by simpa using hj2
    rcases hcase with rfl | ⟨w, rfl⟩
    · exact hou2s
    · rw [pyGetD, lookupKV_setKV, if_neg (by decide)]
      rw [← pyGetD, hou2s]

/-- Witness for C7: `OU2` is rewritten to its mapped id `NEW2`. -/
theorem sanitize_org_unit_mapping_witness :
    pyGetD [("orgUnit", JVal.str "NEW2")] "orgUnit" JVal.null = JVal.str "NEW2" := by
  refine (sanitize_org_unit_mapping (JVal.obj []) (JVal.obj []) fixOuMap
      [("orgUnit", JVal.str "OU2")] "OU2" rfl).2.1 (JVal.str "NEW2") rfl
      (by simp [pyEq, dropSentinel]) [("orgUnit", JVal.str "NEW2")] ?_
  simp [sanitizeItem, cocStep, ouStep, sanitizeDE, pyIn, pyIndex, pyGetD,
        lookupKV, setKV, pyEq, dropSentinel, fixOuMap, pyDictGetD]

/-- A kept record passes through the data-element fixups with its `dataElement` and `value` entries intact. -/
theorem ouStep_to_de (deRules ouMap : JVal) (item2 : Item) (j : Item)
    (h : ouStep deRules ouMap item2 = .ok (some j)) :
    ∃ item3, sanitizeDE deRules item3 = .ok (some j) ∧
      lookupKV item3 "dataElement" = lookupKV item2 "dataElement" ∧
      lookupKV item3 "value" = lookupKV item2 "value" := by
  rw [ouStep] at h
  rcases h1 : pyIn (pyGetD item2 "orgUnit" JVal.null) ouMap with e | b
  · rw [h1] at h; exact absurd h (by simp)
  · rw [h1] at h
    cases b
    · exact ⟨item2, h, rfl, rfl⟩
    · dsimp only at h
      rcases h2 : pyIndex ouMap (pyGetD item2 "orgUnit" JVal.null) with e | mapped
      · rw [h2] at h; exact absurd h (by simp)
      · rw [h2] at h
        dsimp only at h
        by_cases hsent : pyEq mapped dropSentinel = true
        · rw [if_pos hsent] at h
          exact absurd h (by simp)
        · rw [if_neg hsent] at h
          exact ⟨setKV item2 "orgUnit" mapped, h,
            by rw [lookupKV_setKV, if_neg (by decide)],
            by rw [lookupKV_setKV, if_neg (by decide)]⟩

/-- Exact behaviour of the data-element fixup step on a record whose `dataElement` has a rule object and whose `value` reads as a string. -/
theorem sanitizeDE_fixups (deKVs ruleKVs : List (String × JVal)) (item3 : Item) (d s : String)
    (hde : pyGetD item3 "dataElement" JVal.null = JVal.str d)
    (hrule : lookupKV deKVs d = some (JVal.obj ruleKVs))
    (hval : pyGetD item3 "value" (JVal.str "") = JVal.str s) :
    (pyTruthy ((lookupKV ruleKVs "fix_email").getD JVal.null) = true →
       sanitizeDE (JVal.obj deKVs) item3 =
         .ok (some (if containsSubstr "@" s then item3
                    else setKV item3 "value" (JVal.str "invalid_fixed@example.com")))) ∧
    (pyTruthy ((lookupKV ruleKVs "fix_email").getD JVal.null) = false →
     pyTruthy ((lookupKV ruleKVs "fix_phone").getD JVal.null) = true →
       sanitizeDE (JVal.obj deKVs) item3 =
         .ok (some (if s.data.any Char.isAlpha then setKV item3 "value" (JVal.str "0000000000")
                    else item3))) ∧
    (pyTruthy ((lookupKV ruleKVs "fix_email").getD JVal.null) = false →
     pyTruthy ((lookupKV ruleKVs "fix_phone").getD JVal.null) = false →
       sanitizeDE (JVal.obj deKVs) item3 = .ok (some item3)) := by
  have hin : pyIn (pyGetD item3 "dataElement" JVal.null) (JVal.obj deKVs) = .ok true := by
    rw [hde]
    rw [show pyIn (JVal.str d) (JVal.obj deKVs) = .ok (lookupKV deKVs d).isSome from rfl, hrule]
    rfl
  have hix : pyIndex (JVal.obj deKVs) (pyGetD item3 "dataElement" JVal.null)
      = .ok (JVal.obj ruleKVs) := by
    rw [hde]
    rw [show pyIndex (JVal.obj deKVs) (JVal.str d) =
          (match lookupKV deKVs d with
           | some w => .ok w
           | none => .error (.keyError d) : Except PyExn JVal) from rfl, hrule]
  have hfe : pyDictGetD (JVal.obj ruleKVs) "fix_email" JVal.null
      = .ok ((lookupKV ruleKVs "fix_email").getD JVal.null) := rfl
  have hfp : pyDictGetD (JVal.obj ruleKVs) "fix_phone" JVal.null
      = .ok ((lookupKV ruleKVs "fix_phone").getD JVal.null) := rfl
  refine ⟨?_, ?_, ?_⟩
  · intro he
    rw [sanitizeDE, hin]
    dsimp only
    rw [hix]
    dsimp only
    rw [hfe]
    dsimp only
    rw [if_pos he, hval]
    rw [show pyIn (JVal.str "@") (JVal.str s) = .ok (containsSubstr "@" s) from rfl]
    dsimp only
    by_cases hat : containsSubstr "@" s = true
    · simp [hat]
    · rw [Bool.not_eq_true] at hat
      simp [hat]
  · intro he hp
    rw [sanitizeDE, hin]
    dsimp only
    rw [hix]
    dsimp only
    rw [hfe]
    dsimp only
    rw [if_neg (by rw [he]; exact Bool.false_ne_true), hfp]
    dsimp only
    rw [if_pos hp, hval]
    rw [show pyAnyAlpha (JVal.str s) = .ok (s.data.any Char.isAlpha) from rfl]
    dsimp only
    by_cases hal : s.data.any Char.isAlpha = true
    · simp [hal]
    · rw [Bool.not_eq_true] at hal
      simp [hal]
  · intro he hp
    rw [sanitizeDE, hin]
    dsimp only
    rw [hix]
    dsimp only
    rw [hfe]
    dsimp only
    rw [if_neg (by rw [he]; exact Bool.false_ne_true), hfp]
    dsimp only
    rw [if_neg (by rw [hp]; exact Bool.false_ne_true)]

/-- C8: for a record whose `dataElement` has a fixup rule and whose `value` reads as a string: under an email rule (`fix_email` truthy) a value without an `@` becomes the fixed placeholder email and one with an `@` is unchanged; under a phone rule (`fix_phone` truthy, `fix_email` not) a value containing an alphabetic character becomes the fixed placeholder phone number and is otherwise unchanged; a rule with neither flag truthy leaves the value unchanged. -/
theorem sanitize_value_rules (cocMap ouMap : JVal) (deKVs ruleKVs : List (String × JVal))
    (item : Item) (d s : String)
    (hde : pyGetD item "dataElement" JVal.null = JVal.str d)
    (hrule : lookupKV deKVs d = some (JVal.obj ruleKVs))
    (hval : pyGetD item "value" (JVal.str "") = JVal.str s) :
    (pyTruthy ((lookupKV ruleKVs "fix_email").getD JVal.null) = true →
       ∀ j, sanitizeItem cocMap (JVal.obj deKVs) ouMap item = .ok (some j) →
         pyGetD j "value" (JVal.str "") =
           JVal.str (if containsSubstr "@" s then s else "invalid_fixed@example.com")) ∧
    (pyTruthy ((lookupKV ruleKVs "fix_email").getD JVal.null) = false →
     pyTruthy ((lookupKV ruleKVs "fix_phone").getD JVal.null) = true →
       ∀ j, sanitizeItem cocMap (JVal.obj deKVs) ouMap item = .ok (some j) →
         pyGetD j "value" (JVal.str "") =
           JVal.str (if s.data.any Char.isAlpha then "0000000000" else s)) ∧
    (pyTruthy ((lookupKV ruleKVs "fix_email").getD JVal.null) = false →
     pyTruthy ((lookupKV ruleKVs "fix_phone").getD JVal.null) = false →
       ∀ j, sanitizeItem cocMap (JVal.obj deKVs) ouMap item = .ok (some j) →
         pyGetD j "value" (JVal.str "") = JVal.str s) := by
  have main : ∀ j, sanitizeItem cocMap (JVal.obj deKVs) ouMap item = .ok (some j) →
      ∃ item3, sanitizeDE (JVal.obj deKVs) item3 = .ok (some j) ∧
        pyGetD item3 "dataElement" JVal.null = JVal.str d ∧
        pyGetD item3 "value" (JVal.str "") = JVal.str s := by
    intro j h
    obtain ⟨item2, _, hde2, hval2, h2⟩ := sanitizeItem_to_ouStep _ _ _ _ _ h
    obtain ⟨item3, h3, hde3, hval3⟩ := ouStep_to_de _ _ _ _ h2
    exact ⟨item3, h3,
      by rw [pyGetD, hde3, hde2, ← pyGetD, hde],
      by rw [pyGetD, hval3, hval2, ← pyGetD, hval]⟩
  refine ⟨?_, ?_, ?_⟩
  · intro he j h
    obtain ⟨item3, h3, hde3, hval3⟩ := main j h
    have := (sanitizeDE_fixups deKVs ruleKVs item3 d s hde3 hrule hval3).1 he
    rw [this] at h3
    simp only [Except.ok.injEq, Option.some.injEq] at h3
    by_cases hat : containsSubstr "@" s = true
    · rw [if_pos hat] at h3
      rw [← h3, hval3, if_pos hat]
    · rw [Bool.not_eq_true] at hat
      rw [hat] at h3
      rw [if_neg Bool.false_ne_true] at h3
      rw [← h3, pyGetD, lookupKV_setKV, if_pos rfl, hat, if_neg Bool.false_ne_true]
      rfl
  · intro he hp j h
    obtain ⟨item3, h3, hde3, hval3⟩ := main j h
    have := (sanitizeDE_fixups deKVs ruleKVs item3 d s hde3 hrule hval3).2.1 he hp
    rw [this] at h3
    simp only [Except.ok.injEq, Option.some.injEq] at h3
    by_cases hal : s.data.any Char.isAlpha = true
    · rw [if_pos hal] at h3
      rw [← h3, pyGetD, lookupKV_setKV, if_pos rfl, hal, if_pos rfl]
      rfl
    · rw [Bool.not_eq_true] at hal
      rw [hal] at h3
      rw [if_neg Bool.false_ne_true] at h3
      rw [← h3, hval3, hal, if_neg Bool.false_ne_true]
  · intro he hp j h
    obtain ⟨item3, h3, hde3, hval3⟩ := main j h
    have := (sanitizeDE_fixups deKVs ruleKVs item3 d s hde3 hrule hval3).2.2 he hp
    rw [this] at h3
    simp only [Except.ok.injEq, Option.some.injEq] at h3
    rw [← h3, hval3]

/-- Witness for C8: value `bad` under a `fix_email` rule becomes the placeholder email. -/
theorem sanitize_value_rules_witness :
    pyGetD [("dataElement", JVal.str "DE1"), ("value", JVal.str "invalid_fixed@example.com")]
        "value" (JVal.str "") = JVal.str "invalid_fixed@example.com" := by
  have happ := (sanitize_value_rules (JVal.obj []) (JVal.obj []) fixDeMap
      [("fix_email", JVal.bool true)]
      [("dataElement", JVal.str "DE1"), ("value", JVal.str "bad")] "DE1" "bad"
      rfl rfl rfl).1 rfl
      [("dataElement", JVal.str "DE1"), ("value", JVal.str "invalid_fixed@example.com")]
  have hcomp : sanitizeItem (JVal.obj []) (JVal.obj fixDeMap) (JVal.obj [])
      [("dataElement", JVal.str "DE1"), ("value", JVal.str "bad")] =
      .ok (some [("dataElement", JVal.str "DE1"), ("value", JVal.str "invalid_fixed@example.com")]) := by
    simp [sanitizeItem, cocStep, ouStep, sanitizeDE, pyIn, pyIndex, pyGetD,
          lookupKV, setKV, pyTruthy, pyDictGetD, fixDeMap, containsSubstr]
  have := happ hcomp
  rw [if_neg (by decide : ¬ (containsSubstr "@" "bad" = true))] at this
  exact this

/-- C3 exhibit: `_sanitize_batch` raises `TypeError` on a record with an email-fixup rule and a non-string `value` (Python evaluates `'@' not in 5`), and because the sanitization call sits OUTSIDE the `try:` block of `send_batch`, the exception escapes `send_batch` instead of resolving to an `ImportResult` — contradicting the spec contract that all failure modes resolve to a non-throwing `ImportResult`. -/
theorem send_batch_raises_on_nonstring_value :
    sanitize_batch mBug [itemBug] =
      .error (PyExn.typeError "argument of type is not iterable") ∧
    send_batch cfgAggregate mBug (fun _ => ⟨true, 200, "", []⟩)
        (PostOutcome.exn "unused") [itemBug] =
      .error (PyExn.typeError "argument of type is not iterable") := by
  constructor <;> rfl

/-- C2: for a 2xx body with an `importCount` object with integer counts (defaulting to 0) and with total_success = imported+updated+deleted: ERROR status with total_success 0 is a failure; ignored > 0 with total_success > 0 is a success with the partial-success message; ignored > 0 with total_success 0 and a non-ERROR status is a success reporting already-imported duplicates; every other case is a full success. -/
theorem parse_response_import_count (kvs countKVs : List (String × JVal))
    (ig im up dl : Int) (cs : List String)
    (hic : lookupKV kvs "importCount" = some (JVal.obj countKVs))
    (hig : (lookupKV countKVs "ignored").getD (JVal.num 0) = JVal.num ig)
    (him : (lookupKV countKVs "imported").getD (JVal.num 0) = JVal.num im)
    (hup : (lookupKV countKVs "updated").getD (JVal.num 0) = JVal.num up)
    (hdl : (lookupKV countKVs "deleted").getD (JVal.num 0) = JVal.num dl)
    (hcf : extractConflicts (JVal.obj kvs) = .ok cs) :
    (pyEq ((lookupKV kvs "status").getD JVal.null) (JVal.str "ERROR") = true →
     im + up + dl = 0 →
       parse_response (JVal.obj kvs) =
         .ok ⟨false, 200, s!"HARD FAILURE. All {toString (im + up + dl + ig)} records rejected.", cs⟩) ∧
    (0 < ig → 0 < im + up + dl →
       parse_response (JVal.obj kvs) =
         .ok ⟨true, 200, s!"Partial Success. Imp:{toString im} Upd:{toString up} Ign:{toString ig}", cs⟩) ∧
    (0 < ig → im + up + dl = 0 →
     pyEq ((lookupKV kvs "status").getD JVal.null) (JVal.str "ERROR") = false →
       parse_response (JVal.obj kvs) =
         .ok ⟨true, 200, s!"All {toString ig} records already exist (duplicates). No update needed.", cs⟩) ∧
    (¬ (pyEq ((lookupKV kvs "status").getD JVal.null) (JVal.str "ERROR") = true ∧ im + up + dl = 0) →
     ¬ (0 < ig ∧ 0 < im + up + dl) →
     ¬ (0 < ig ∧ im + up + dl = 0 ∧
          pyEq ((lookupKV kvs "status").getD JVal.null) (JVal.str "ERROR") = false) →
       parse_response (JVal.obj kvs) =
         .ok ⟨true, 200, s!"Success. Imp:{toString im} Upd:{toString up} Del:{toString dl}", []⟩) := by
  have hpsn : ∀ n : Int, pyStr (JVal.num n) = toString n := by
    intro n
    simp [pyStr, pyRepr]
  have hstep : ∀ P : Except PyExn ImportResult → Prop,
      (P (if pyEq ((lookupKV kvs "status").getD JVal.null) (JVal.str "ERROR")
              && pyEq (JVal.num (im + up + dl)) (JVal.num 0) then
            .ok ⟨false, 200,
              s!"HARD FAILURE. All {pyStr (JVal.num (im + up + dl + ig))} records rejected.", cs⟩
          else if decide (0 < ig) then
            (if decide (0 < im + up + dl) then
              .ok ⟨true, 200,
                s!"Partial Success. Imp:{pyStr (JVal.num im)} Upd:{pyStr (JVal.num up)} Ign:{pyStr (JVal.num ig)}", cs⟩
            else if pyEq (JVal.num (im + up + dl)) (JVal.num 0)
                && !pyEq ((lookupKV kvs "status").getD JVal.null) (JVal.str "ERROR") then
              .ok ⟨true, 200,
                s!"All {pyStr (JVal.num ig)} records already exist (duplicates). No update needed.", cs⟩
            else
              .ok ⟨true, 200,
                s!"Success. Imp:{pyStr (JVal.num im)} Upd:{pyStr (JVal.num up)} Del:{pyStr (JVal.num dl)}", []⟩)
          else
            .ok ⟨true, 200,
              s!"Success. Imp:{pyStr (JVal.num im)} Upd:{pyStr (JVal.num up)} Del:{pyStr (JVal.num dl)}", []⟩)) →
      P (parse_response (JVal.obj kvs)) := by
    intro P hP
    rw [parse_response]
    rw [show pyIn (JVal.str "importCount") (JVal.obj kvs)
          = .ok (lookupKV kvs "importCount").isSome from rfl, hic]
    dsimp only [Option.isSome]
    rw [show pyIndex (JVal.obj kvs) (JVal.str "importCount")
          = (match lookupKV kvs "importCount" with
             | some w => .ok w
             | none => .error (.keyError "importCount") : Except PyExn JVal) from rfl, hic]
    dsimp only
    rw [show pyDictGetD (JVal.obj countKVs) "ignored" (JVal.num 0)
          = .ok ((lookupKV countKVs "ignored").getD (JVal.num 0)) from rfl, hig]
    dsimp only
    rw [show pyDictGetD (JVal.obj countKVs) "imported" (JVal.num 0)
          = .ok ((lookupKV countKVs "imported").getD (JVal.num 0)) from rfl, him]
    dsimp only
    rw [show pyDictGetD (JVal.obj countKVs) "updated" (JVal.num 0)
          = .ok ((lookupKV countKVs "updated").getD (JVal.num 0)) from rfl, hup]
    dsimp only
    rw [show pyDictGetD (JVal.obj countKVs) "deleted" (JVal.num 0)
          = .ok ((lookupKV countKVs "deleted").getD (JVal.num 0)) from rfl, hdl]
    dsimp only
    rw [show pyDictGetD (JVal.obj kvs) "status" JVal.null
          = .ok ((lookupKV kvs "status").getD JVal.null) from rfl]
    dsimp only
    rw [show pyAdd (JVal.num im) (JVal.num up) = .ok (JVal.num (im + up)) from rfl]
    dsimp only
    rw [show pyAdd (JVal.num (im + up)) (JVal.num dl) = .ok (JVal.num (im + up + dl)) from rfl]
    dsimp only
    rw [show pyAdd (JVal.num (im + up + dl)) (JVal.num ig)
          = .ok (JVal.num (im + up + dl + ig)) from rfl]
    dsimp only
    rw [hcf]
    dsimp only
    rw [show pyGtZero (JVal.num ig) = .ok (decide (0 < ig)) from rfl]
    rw [show pyGtZero (JVal.num (im + up + dl)) = .ok (decide (0 < im + up + dl)) from rfl]
    dsimp only
    exact hP
  have hpeq : ∀ t u : Int, pyEq (JVal.num t) (JVal.num u) = (t == u) := by
    intro t u
    rw [pyEq]
  refine ⟨?_, ?_, ?_, ?_⟩
  · intro hst hts
    refine hstep (fun x => x = _) ?_
    rw [if_pos (by rw [hst, hpeq, hts]; simp)]
    rw [hpsn]
  · intro hig0 hts0
    refine hstep (fun x => x = _) ?_
    rw [if_neg (by rw [hpeq]; simp; omega)]
    rw [if_pos (by simp [hig0]), if_pos (by simp [hts0])]
    rw [hpsn, hpsn, hpsn]
  · intro hig0 hts hst
    refine hstep (fun x => x = _) ?_
    rw [if_neg (by rw [hst]; simp)]
    rw [if_pos (by simp [hig0])]
    rw [if_neg (by simp; omega)]
    rw [if_pos (by rw [hpeq, hts, hst]; simp)]
    rw [hpsn]
  · intro h1 h2 h3
    refine hstep (fun x => x = _) ?_
    by_cases hB : im + up + dl = 0
    · have hA : pyEq ((lookupKV kvs "status").getD JVal.null) (JVal.str "ERROR") = false := by
        rcases Bool.eq_false_or_eq_true
            (pyEq ((lookupKV kvs "status").getD JVal.null) (JVal.str "ERROR")) with h | h
        · exact absurd ⟨h, hB⟩ h1
        · exact h
      rw [if_neg (by rw [hA]; simp)]
      by_cases hC : 0 < ig
      · exact absurd ⟨hC, hB, hA⟩ h3
      · rw [if_neg (by simpa using hC)]
        rw [hpsn, hpsn, hpsn]
    · rw [if_neg (by rw [hpeq]; simp; omega)]
      by_cases hC : 0 < ig
      · rw [if_pos (by simp [hC])]
        have hD : ¬ (0 < im + up + dl) := fun hD => h2 ⟨hC, hD⟩
        rw [if_neg (by simpa using hD)]
        rw [if_neg (by rw [hpeq]; simp; omega)]
        rw [hpsn, hpsn, hpsn]
      · rw [if_neg (by simpa using hC)]
        rw [hpsn, hpsn, hpsn]

/-- Witness for C2 at the hard-failure body. -/
theorem parse_response_import_count_witness :
    parse_response (JVal.obj bodyHard) =
      .ok ⟨false, 200, "HARD FAILURE. All 0 records rejected.", []⟩ := by
  have := (parse_response_import_count bodyHard
      [("imported", JVal.num 0), ("updated", JVal.num 0),
       ("ignored", JVal.num 0), ("deleted", JVal.num 0)]
      0 0 0 0 [] rfl rfl rfl rfl rfl rfl).1 (by simp [pyEq, bodyHard, lookupKV]) (by decide)
  exact this

/-- A string is a substring of itself followed by anything. -/
theorem containsSubstr_append (s t : String) : containsSubstr s (s ++ t) = true := by
  rw [containsSubstr, List.any_eq_true]
  refine ⟨(s ++ t).data, ?_, ?_⟩
  · rw [List.mem_tails]
  · rw [List.isPrefixOf_iff_prefix, String.data_append]
    exact List.prefix_append _ _

/-- A sink that always fails with the network marker keeps the recovery loop retrying past any bound. -/
theorem processBatchLoop_network_none (r : ImportResult)
    (hs : r.success = false) (hn : isNetworkError r = true) :
    ∀ fuel attempt, processBatchLoop (fun _ => r) attempt fuel = none := by
  intro fuel
  induction fuel with
  | zero => intro attempt; rfl
  | succ fuel ih =>
    intro attempt
    rw [processBatchLoop]
    simp only [hs, hn, Bool.false_eq_true, if_false, if_true]
    exact ih (attempt + 1)

/-- C10: with sanitization succeeding, a 2xx response whose body fails to parse as JSON — like any exception raised after the request is issued — yields a failure `ImportResult` carrying the `Connection/Network Error` marker, which the orchestrator retries without bound; a parseable but unrecognized 2xx body instead yields the optimistic success. -/
theorem send_batch_malformed_2xx (cfg : MigrationConfig) (mappings : JVal)
    (pollRes : JVal → ImportResult) (batch sanitized : List Item)
    (hdry : cfg.dry_run = false)
    (hsan : sanitize_batch mappings batch = .ok sanitized) :
    (∀ st e txt, 200 ≤ st → st < 300 →
       send_batch cfg mappings pollRes (.resp st (.error e) txt) batch =
         .ok ⟨false, 0, "Connection/Network Error: " ++ e, []⟩) ∧
    (∀ e, send_batch cfg mappings pollRes (.exn e) batch =
       .ok ⟨false, 0, "Connection/Network Error: " ++ e, []⟩) ∧
    (∀ e, isNetworkError ⟨false, 0, "Connection/Network Error: " ++ e, []⟩ = true) ∧
    (∀ r, r.success = false → isNetworkError r = true →
       ∀ fuel, processBatchLoop (fun _ => r) 0 fuel = none) ∧
    (∀ st txt, 200 ≤ st → st < 300 →
       send_batch cfg mappings pollRes (.resp st (.ok (JVal.obj [])) txt) batch =
         .ok ⟨true, 200, "Request received (parsing unavailable)", []⟩) := by
  have hsb : ∀ post, send_batch cfg mappings pollRes post batch =
      .ok (match sendTryBlock cfg pollRes post with
           | .ok r => r
           | .error e => ⟨false, 0, "Connection/Network Error: " ++ pyExnStr e, []⟩) := by
    intro post
    rw [send_batch, hdry]
    rw [if_neg Bool.false_ne_true, hsan]
  refine ⟨?_, ?_, ?_, ?_, ?_⟩
  · intro st e txt h1 h2
    rw [hsb]
    rw [sendTryBlock]
    rw [if_neg (by omega), if_pos (by omega)]
    rfl
  · intro e
    rw [hsb]
    rfl
  · intro e
    rw [isNetworkError]
    exact containsSubstr_append "Connection/Network Error" (": " ++ e)
  · intro r hs hn fuel
    exact processBatchLoop_network_none r hs hn fuel 0
  · intro st txt h1 h2
    rw [hsb]
    rw [sendTryBlock]
    rw [if_neg (by omega), if_pos (by omega)]
    by_cases ht : cfg.endpoint_type = "tracker" ∧ cfg.async_tracker
    · rw [if_pos ht]
      rfl
    · rw [if_neg ht]
      rfl

/-- Witness for C10 at a 200 response with an unparseable body. -/
theorem send_batch_malformed_2xx_witness :
    send_batch cfgAggregate (JVal.obj []) (fun _ => ⟨true, 200, "", []⟩)
        (.resp 200 (.error "Expecting value") "<html>") [] =
      .ok ⟨false, 0, "Connection/Network Error: Expecting value", []⟩ :=
  (send_batch_malformed_2xx cfgAggregate (JVal.obj []) (fun _ => ⟨true, 200, "", []⟩)
      [] [] rfl rfl).1 200 "Expecting value" "<html>" (by omega) (by omega)

/-- A job that stays RUNNING/PENDING drives the poll loop to the timeout result, with every sleep between 1 and 10 seconds and the first sleep equal to the current backoff; any fuel bounding `max_wait` suffices because the backoff never drops below 1 second. -/
theorem pollGo_timeout (responses : Nat → PollResponse) (maxWait : Nat)
    (hresp : ∀ n, keepsPolling (responses n)) :
    ∀ (fuel i : Nat) (elapsed backoff : ℚ), 1 ≤ backoff → backoff ≤ 10 →
      (maxWait : ℚ) ≤ elapsed + (fuel : ℚ) →
      ∃ sleeps, pollGo responses maxWait fuel i elapsed backoff =
          some (⟨false, 0, "Tracker job timeout after " ++ toString maxWait ++ "s", []⟩, sleeps) ∧
        (∀ s ∈ sleeps, 1 ≤ s ∧ s ≤ 10) ∧
        (elapsed < (maxWait : ℚ) → sleeps.head? = some backoff) := by
  intro fuel
  induction fuel with
  | zero =>
    intro i elapsed backoff h1 h10 hfuel
    rw [pollGo]
    rw [if_neg (by push_cast at hfuel ⊢; linarith)]
    exact ⟨[], rfl, by simp, fun hlt => absurd hlt (by push_cast at hfuel ⊢; linarith)⟩
  | succ fuel ih =>
    intro i elapsed backoff h1 h10 hfuel
    rw [pollGo]
    by_cases hlt : elapsed < (maxWait : ℚ)
    · rw [if_pos hlt]
      obtain ⟨body, hb, hst⟩ := hresp i
      rw [hb]
      dsimp only
      rcases hst with hst | hst
      · rw [hst]
        dsimp only
        rw [if_neg (by simp [pyEq]), if_neg (by simp [pyEq]), if_pos (by simp [pyEq])]
        obtain ⟨sleeps, hpoll, hbnd, hhead⟩ := ih (i + 1) (elapsed + backoff)
          (min (backoff * (3 / 2)) 10)
          (by rw [le_min_iff]; constructor <;> linarith)
          (min_le_right _ _)
          (by push_cast at hfuel ⊢; linarith)
        rw [hpoll]
        exact ⟨backoff :: sleeps, rfl,
          by intro s hs; rcases List.mem_cons.mp hs with rfl | hs
             · exact ⟨h1, h10⟩
             · exact hbnd s hs,
          fun _ => rfl⟩
      · rw [hst]
        dsimp only
        rw [if_neg (by simp [pyEq]), if_neg (by simp [pyEq]), if_pos (by simp [pyEq])]
        obtain ⟨sleeps, hpoll, hbnd, hhead⟩ := ih (i + 1) (elapsed + backoff)
          (min (backoff * (3 / 2)) 10)
          (by rw [le_min_iff]; constructor <;> linarith)
          (min_le_right _ _)
          (by push_cast at hfuel ⊢; linarith)
        rw [hpoll]
        exact ⟨backoff :: sleeps, rfl,
          by intro s hs; rcases List.mem_cons.mp hs with rfl | hs
             · exact ⟨h1, h10⟩
             · exact hbnd s hs,
          fun _ => rfl⟩
    · rw [if_neg hlt]
      exact ⟨[], rfl, by simp, fun h => absurd h hlt⟩

/-- C9: polling a tracker job that stays RUNNING/PENDING sleeps with a backoff starting at 1 s and capped at 10 s between polls, and once the default 300 s maximum wait is exceeded returns a timeout failure whose message does not contain the network marker, so the orchestrator counts the batch as failed and skips it after a single send instead of retrying. -/
theorem poll_timeout_skips (responses : Nat → PollResponse) (fuel : Nat)
    (hfuel : 300 ≤ fuel) (hresp : ∀ n, keepsPolling (responses n)) :
    (poll_tracker_job responses 300 fuel).map Prod.fst =
      some ⟨false, 0, "Tracker job timeout after 300s", []⟩ ∧
    (∀ out, poll_tracker_job responses 300 fuel = some out →
       out.2.head? = some 1 ∧ ∀ s ∈ out.2, 1 ≤ s ∧ s ≤ 10) ∧
    isNetworkError ⟨false, 0, "Tracker job timeout after 300s", []⟩ = false ∧
    processBatchLoop (fun _ => ⟨false, 0, "Tracker job timeout after 300s", []⟩) 0 1 =
      some (.skipped 1 0) := by
  obtain ⟨sleeps, hpoll, hbnd, hhead⟩ :=
    pollGo_timeout responses 300 hresp fuel 0 0 1 (by norm_num) (by norm_num)
      (by push_cast
          have : (300 : ℚ) ≤ (fuel : ℚ) := by exact_mod_cast hfuel
          linarith)
  have hmsg : ("Tracker job timeout after " ++ toString (300 : Nat) ++ "s")
      = "Tracker job timeout after 300s" := rfl
  rw [poll_tracker_job] at *
  refine ⟨?_, ?_, ?_, ?_⟩
  · rw [hpoll]
    simp [hmsg]
  · intro out hout
    rw [hpoll] at hout
    obtain rfl : out = (⟨false, 0, "Tracker job timeout after " ++ toString (300:Nat) ++ "s", []⟩, sleeps) := by
      simpa using hout.symm
    exact ⟨hhead (by norm_num), hbnd⟩
  · decide
  · decide

/-- Witness for C9 at a constant-RUNNING job. -/
theorem poll_timeout_skips_witness :
    (poll_tracker_job
        (fun _ => PollResponse.ok200 (.ok (JVal.obj [("status", JVal.str "RUNNING")])))
        300 300).map Prod.fst =
      some ⟨false, 0, "Tracker job timeout after 300s", []⟩ :=
  (poll_timeout_skips
      (fun _ => PollResponse.ok200 (.ok (JVal.obj [("status", JVal.str "RUNNING")])))
      300 (le_refl 300)
      (fun _ => ⟨JVal.obj [("status", JVal.str "RUNNING")], rfl, Or.inl rfl⟩)).1

/-- The recovery loop resends the same batch after each network-marked failure (10 s of waiting per retry) and delivers on the first success: k marked failures before a success mean exactly k+1 sends. -/
theorem processBatchLoop_retry (sink : Nat → ImportResult) :
    ∀ k attempt fuel,
      (∀ i, i < k → (sink (attempt + i)).success = false ∧
         isNetworkError (sink (attempt + i)) = true) →
      (sink (attempt + k)).success = true →
      k < fuel →
      processBatchLoop sink attempt fuel =
        some (.delivered (attempt + k + 1) (10 * (attempt + k))) := by
  intro k
  induction k with
  | zero =>
    intro attempt fuel hfail hsucc hfuel
    cases fuel with
    | zero => omega
    | succ fuel =>
      rw [processBatchLoop]
      rw [Nat.add_zero] at hsucc
      simp [hsucc]
  | succ k ih =>
    intro attempt fuel hfail hsucc hfuel
    cases fuel with
    | zero => omega
    | succ fuel =>
      rw [processBatchLoop]
      have h0 := hfail 0 (by omega)
      rw [Nat.add_zero] at h0
      simp only [h0.1, h0.2, Bool.false_eq_true, if_false, if_true]
      have hrec := ih (attempt + 1) fuel
        (fun i hi => by
          have := hfail (i + 1) (by omega)
          rwa [show attempt + (i + 1) = attempt + 1 + i by omega] at this)
        (by rwa [show attempt + 1 + k = attempt + (k + 1) by omega])
        (by omega)
      rw [hrec]
      congr 2 <;> omega

/-- C1: a batch whose sink fails k times with network-marked messages and then succeeds is sent exactly k+1 times with 10 seconds of retry delay each, is counted once in batches processed and once (by record count) in records uploaded; a following batch whose sink returns a non-network failure is sent exactly once, increments the failed-batch counter by exactly one, and the run moves past it. -/
theorem orchestrator_retry_policy (respond : Nat → Nat → ImportResult)
    (b1 b2 : List Item) (k fuel : Nat)
    (hnet : ∀ i, i < k → (respond 0 i).success = false ∧
       isNetworkError (respond 0 i) = true)
    (hsucc : (respond 0 k).success = true)
    (hfail2 : (respond 1 0).success = false)
    (hnn2 : isNetworkError (respond 1 0) = false)
    (hfuel : k < fuel) :
    run_migration respond fuel [b1, b2] =
      some (⟨b1.length, 2, 1⟩, [(k + 1, 10 * k), (1, 0)]) := by
  rw [run_migration, runGo]
  have h1 : processBatchLoop (respond 0) 0 fuel = some (.delivered (k + 1) (10 * k)) := by
    have := processBatchLoop_retry (respond 0) k 0 fuel
      (fun i hi => by simpa using hnet i hi) (by simpa using hsucc) hfuel
    simpa using this
  rw [h1]
  dsimp only
  rw [runGo]
  have h2 : processBatchLoop (respond 1) 0 fuel = some (.skipped 1 0) := by
    cases fuel with
    | zero => omega
    | succ fuel =>
      rw [processBatchLoop]
      simp [hfail2, hnn2]
  rw [h2]
  dsimp only
  rw [runGo]
  simp

/-- Witness for C1: two network failures then success on batch 0, a 4xx-classified failure on batch 1. -/
theorem orchestrator_retry_policy_witness :
    run_migration
      (fun b i => if b = 0 then
          (if i < 2 then ⟨false, 0, "Connection/Network Error: reset", []⟩
           else ⟨true, 200, "ok", []⟩)
        else ⟨false, 409, "Client Error: conflict", []⟩)
      50 [[fixA, fixA], [fixB]] =
      some (⟨2, 2, 1⟩, [(3, 20), (1, 0)]) := by
  have := orchestrator_retry_policy
    (fun b i => if b = 0 then
        (if i < 2 then ⟨false, 0, "Connection/Network Error: reset", []⟩
         else ⟨true, 200, "ok", []⟩)
      else ⟨false, 409, "Client Error: conflict", []⟩)
    [fixA, fixA] [fixB] 2 50
    (fun i hi => by
      constructor
      · simp [hi]
      · simp only [if_pos rfl, if_pos hi]
        exact containsSubstr_append "Connection/Network Error" ": reset")
    (by simp) (by simp) (by decide) (by omega)
  simpa using this
